import Mathlib

/-!
Verification development for the DataLock build page
(`src/app/build/page.tsx`): the match-context selection state machine
(`handleHeroClick`, `usedHeroIds`, `canSubmit`), the request builder in
`handleRecommendClick`, and the pure display-derivation helpers
(`formatPercent`, `formatPercentile`, `tierToRoman`, synergy/flow panel
selection in `renderRecommendations`).

Hero ids are JavaScript numbers that are always integers; they are
modelled as `Int`.  General JavaScript numbers that flow through the
formatters are modelled by `JNum`: either NaN or an exact rational.
`null` and `undefined` are both modelled as `Option.none` (the source
only ever distinguishes them with `== null`, which matches both).
-/

/-- The selection stages, in enum order (`SelectionStage` in the source). -/
inductive SelectionStage where
  | hero
  | laneAlly
  | teamOthers
  | laneEnemies
  | enemyOthers
deriving DecidableEq, Repr

/-- 6v6: hero + laneAlly + 4 other allies (`MAX_TEAM_OTHERS`). -/
def MAX_TEAM_OTHERS : Nat := 4

/-- 2 lane enemies (`MAX_LANE_ENEMIES`). -/
def MAX_LANE_ENEMIES : Nat := 2

/-- 4 other enemies (`MAX_ENEMY_OTHERS`). -/
def MAX_ENEMY_OTHERS : Nat := 4

/-- The selection state of the build page: the five role slots
(`heroId`, `laneAllyId`, `teamOtherIds`, `laneEnemyIds`, `enemyOtherIds`
React states) together with the current `stage`. -/
structure SelectionState where
  stage : SelectionStage
  heroId : Option Int
  laneAllyId : Option Int
  teamOtherIds : List Int
  laneEnemyIds : List Int
  enemyOtherIds : List Int
deriving DecidableEq, Repr

/-- The initial state of the component: all slots empty, stage `hero`. -/
def initialState : SelectionState :=
  { stage := SelectionStage.hero
    heroId := none
    laneAllyId := none
    teamOtherIds := []
    laneEnemyIds := []
    enemyOtherIds := [] }

/-- The set `usedHeroIds` from the source, modelled as the list of all ids
occurring in any of the five role slots (membership is what the source
queries with `usedHeroIds.has`). -/
def usedHeroIds (s : SelectionState) : List Int :=
  s.heroId.toList ++ s.laneAllyId.toList ++
    s.teamOtherIds ++ s.laneEnemyIds ++ s.enemyOtherIds

/-- `handleHeroClick` from the source: toggle-off when the clicked id
already occupies the slot governed by the current stage; no-op when the
id is used by another role; otherwise assignment with auto-advance, and
a silent no-op when a multi-valued slot is already at capacity. -/
def handleHeroClick (s : SelectionState) (id : Int) : SelectionState :=
  if s.stage = SelectionStage.hero ∧ s.heroId = some id then
    { s with heroId := none }
  else if s.stage = SelectionStage.laneAlly ∧ s.laneAllyId = some id then
    { s with laneAllyId := none }
  else if s.stage = SelectionStage.teamOthers ∧ id ∈ s.teamOtherIds then
    { s with teamOtherIds := s.teamOtherIds.filter (fun x => x ≠ id) }
  else if s.stage = SelectionStage.laneEnemies ∧ id ∈ s.laneEnemyIds then
    { s with laneEnemyIds := s.laneEnemyIds.filter (fun x => x ≠ id) }
  else if s.stage = SelectionStage.enemyOthers ∧ id ∈ s.enemyOtherIds then
    { s with enemyOtherIds := s.enemyOtherIds.filter (fun x => x ≠ id) }
  else if id ∈ usedHeroIds s then
    s
  else
    match s.stage with
    | SelectionStage.hero =>
        { s with heroId := some id, stage := SelectionStage.laneAlly }
    | SelectionStage.laneAlly =>
        { s with laneAllyId := some id, stage := SelectionStage.teamOthers }
    | SelectionStage.teamOthers =>
        if MAX_TEAM_OTHERS ≤ s.teamOtherIds.length then s
        else
          { s with
              teamOtherIds := s.teamOtherIds ++ [id]
              stage :=
                if (s.teamOtherIds ++ [id]).length = MAX_TEAM_OTHERS then
                  SelectionStage.laneEnemies
                else s.stage }
    | SelectionStage.laneEnemies =>
        if MAX_LANE_ENEMIES ≤ s.laneEnemyIds.length then s
        else
          { s with
              laneEnemyIds := s.laneEnemyIds ++ [id]
              stage :=
                if (s.laneEnemyIds ++ [id]).length = MAX_LANE_ENEMIES then
                  SelectionStage.enemyOthers
                else s.stage }
    | SelectionStage.enemyOthers =>
        if MAX_ENEMY_OTHERS ≤ s.enemyOtherIds.length then s
        else { s with enemyOtherIds := s.enemyOtherIds ++ [id] }

/-- `handleStageClick` from the source, restricted to its effect on the
selection state: an explicit jump to a stage. -/
def handleStageClick (s : SelectionState) (next : SelectionStage) : SelectionState :=
  { s with stage := next }

/-- The `canSubmit` gate from the source (the spec's `isComplete`). -/
def canSubmit (s : SelectionState) : Bool :=
  s.heroId.isSome && s.laneAllyId.isSome &&
    (s.teamOtherIds.length == MAX_TEAM_OTHERS) &&
    (s.laneEnemyIds.length == MAX_LANE_ENEMIES) &&
    (s.enemyOtherIds.length == MAX_ENEMY_OTHERS)

/-- Run a sequence of hero clicks from the initial state. -/
def runClicks (ids : List Int) : SelectionState :=
  ids.foldl handleHeroClick initialState

/-- A state is reachable when some sequence of `handleHeroClick` calls
produces it from the initial state. -/
def Reachable (s : SelectionState) : Prop :=
  ∃ ids : List Int, runClicks ids = s

/-- Number of the five role slots in which `id` currently appears. -/
def rolesOf (s : SelectionState) (id : Int) : Nat :=
  (if s.heroId = some id then 1 else 0) +
    (if s.laneAllyId = some id then 1 else 0) +
    (if id ∈ s.teamOtherIds then 1 else 0) +
    (if id ∈ s.laneEnemyIds then 1 else 0) +
    (if id ∈ s.enemyOtherIds then 1 else 0)

/-- The contents of the slot governed by a stage, viewed uniformly as a
list (single-valued slots become the empty or one-element list). -/
def slotOf (st : SelectionStage) (s : SelectionState) : List Int :=
  match st with
  | SelectionStage.hero => s.heroId.toList
  | SelectionStage.laneAlly => s.laneAllyId.toList
  | SelectionStage.teamOthers => s.teamOtherIds
  | SelectionStage.laneEnemies => s.laneEnemyIds
  | SelectionStage.enemyOthers => s.enemyOtherIds

/-- Exact rational multiplication through `mkRat`, so that concrete
values reduce inside the kernel (`Rat.mul` is irreducible in Batteries);
proved equal to `*` in `qmul_eq_mul`. -/
def qmul (a b : ℚ) : ℚ := mkRat (a.num * b.num) (a.den * b.den)

/-- Exact rational addition through `mkRat`; proved equal to `+` in
`qadd_eq_add`. -/
def qadd (a b : ℚ) : ℚ := mkRat (a.num * b.den + b.num * a.den) (a.den * b.den)

/-- JavaScript `Math.abs` on an exact rational; proved equal to `|·|`
in `qabs_eq_abs`. -/
def qabs (a : ℚ) : ℚ := if a < 0 then -a else a

/-- A JavaScript number: NaN or an exact rational.  (Infinities never
arise in the claims and are omitted; every arithmetic step the source
performs on the modelled values is exact.) -/
inductive JNum where
  | nan : JNum
  | num : ℚ → JNum
deriving DecidableEq, Repr

/-- JavaScript `Number.prototype.toFixed(1)`: the sign is taken from the
argument, then the magnitude is rendered with one digit after the point,
rounding to the nearest tenth with ties away from zero (ECMA-262 picks
the larger candidate integer after the sign has been split off).  The
scaled magnitude is nonnegative, so `toNat` is exact. -/
def toFixed1 (x : ℚ) : String :=
  let sign := if x < 0 then "-" else ""
  let m : Nat := (Int.floor (qadd (qmul (qabs x) 10) (mkRat 1 2))).toNat
  sign ++ toString (m / 10) ++ "." ++ toString (m % 10)

/-- JavaScript `Math.round`: round half toward positive infinity. -/
def jsMathRound (q : ℚ) : Int := Int.floor (qadd q (mkRat 1 2))

/-- `formatPercent` from the source: `"—"` for `null`/`undefined`/NaN,
otherwise multiply by 100 when the value is `<= 1` and render with
`toFixed(1)` and a `%` sign. -/
def formatPercent (value : Option JNum) : String :=
  match value with
  | none => "—"
  | some JNum.nan => "—"
  | some (JNum.num value) =>
      let v := if value ≤ 1 then qmul value 100 else value
      toFixed1 v ++ "%"

/-- `formatPercentile` from the source: `"—"` for `null`/`undefined`/NaN,
otherwise the same dual-scale step, `Math.round`, and a `"th"` suffix. -/
def formatPercentile (value : Option JNum) : String :=
  match value with
  | none => "—"
  | some JNum.nan => "—"
  | some (JNum.num value) =>
      let v := if value ≤ 1 then qmul value 100 else value
      toString (jsMathRound v) ++ "th"

/-- The `TIER_ROMAN` record from the source: keys 1–5. -/
def TIER_ROMAN (t : ℚ) : Option String :=
  if t = 1 then some "I"
  else if t = 2 then some "II"
  else if t = 3 then some "III"
  else if t = 4 then some "IV"
  else if t = 5 then some "V"
  else none

/-- JavaScript `String(t)` for the numbers that reach the fallback in
`tierToRoman`.  Exact for integral values — the only values any claim
exercises; JS would print a non-integral number in decimal notation,
which no claim depends on. -/
def jsNumToString (q : ℚ) : String :=
  if q.den = 1 then toString q.num
  else toString q.num ++ "/" ++ toString q.den

/-- `tierToRoman` from the source: `""` when the tier is falsy
(`null`/`undefined`/NaN/0) or `<= 0`, the Roman numeral for keys 1–5,
and `String(tier)` otherwise. -/
def tierToRoman (tier : Option JNum) : String :=
  match tier with
  | none => ""
  | some JNum.nan => ""
  | some (JNum.num t) =>
      if t = 0 then ""
      else if t ≤ 0 then ""
      else
        match TIER_ROMAN t with
        | some r => r
        | none => jsNumToString t

/-- A `RecommendedItem` from `types/deadlock.ts`.  Fields the component
reads through `!= null` guards are modelled as `Option JNum` (the wire
format may carry `null` even where the TS type says `number`). -/
structure RecommendedItem where
  item_id : Int
  name : String
  tier : Option JNum
  cost : JNum
  score : JNum
  shop_image : Option String
  shop_image_webp : Option String
  item_slot_type : Option String
  phase_rank : Option JNum
  phase_percentile : Option JNum
  hero_item_wr : Option JNum
  item_global_wr : Option JNum
  synergy_delta_wr : Option JNum
  transition_prob_from_prev : Option JNum
  order_in_phase : JNum
  order_global : JNum
  total_score : Option JNum
deriving DecidableEq, Repr

/-- `hasSynergy` from `renderRecommendations`:
`item.synergy_delta_wr != null && Math.abs(item.synergy_delta_wr) > 0.0005`
(NaN fails the comparison). -/
def hasSynergy (it : RecommendedItem) : Bool :=
  match it.synergy_delta_wr with
  | none => false
  | some JNum.nan => false
  | some (JNum.num d) => mkRat 5 10000 < qabs d

/-- `synergyPositive` from the source: `(item.synergy_delta_wr ?? 0) >= 0`
(NaN fails the comparison). -/
def synergyPositive (it : RecommendedItem) : Bool :=
  match it.synergy_delta_wr with
  | none => true
  | some JNum.nan => false
  | some (JNum.num d) => 0 ≤ d

/-- `synergyDisplay` from the source: under the `hasSynergy` guard the
delta is a non-NaN number, so the source's `as number` cast is modelled
by the match; the glyph is `+` or the Unicode minus `−`. -/
def synergyDisplay (it : RecommendedItem) : Option String :=
  if hasSynergy it then
    match it.synergy_delta_wr with
    | some (JNum.num d) =>
        some ((if synergyPositive it then "+" else "−") ++
          formatPercent (some (JNum.num (qabs d))))
    | _ => none
  else none

/-- `flowDisplay` from the source: non-null exactly when
`transition_prob_from_prev` is non-null. -/
def flowDisplay (it : RecommendedItem) : Option String :=
  match it.transition_prob_from_prev with
  | none => none
  | some v => some (formatPercent (some v))

/-- The guard `hasSynergy || flowDisplay` on the single highlight block
in the stats view (the block is rendered at most once per item). -/
def statBlockShown (it : RecommendedItem) : Bool :=
  hasSynergy it || (flowDisplay it).isSome

/-- The label of the highlight block: `Synergy` when `hasSynergy`,
otherwise `Flow`. -/
def statBlockLabel (it : RecommendedItem) : String :=
  if hasSynergy it then "Synergy" else "Flow"

/-- The synergy panel is the highlight block rendered with the
`Synergy` label. -/
def showsSynergyPanel (it : RecommendedItem) : Bool :=
  statBlockShown it && (statBlockLabel it == "Synergy")

/-- The flow panel is the highlight block rendered with the
`Flow` label. -/
def showsFlowPanel (it : RecommendedItem) : Bool :=
  statBlockShown it && (statBlockLabel it == "Flow")

/-- The positive/negative styling class on the highlight block:
sign-determined when the synergy panel is shown, absent otherwise. -/
def highlightClass (it : RecommendedItem) : String :=
  if hasSynergy it then
    if synergyPositive it then "item-stat-block--positive"
    else "item-stat-block--negative"
  else ""

/-- The `RecommendPayload` wire shape from `types/deadlock.ts`. -/
structure RecommendPayload where
  hero_id : Int
  lane_ally_id : Int
  team_other_ids : List Int
  lane_enemy_ids : List Int
  enemy_other_ids : List Int
  top_k_per_phase : Int
deriving DecidableEq, Repr

/-- The request built in `handleRecommendClick`: defined only under the
`canSubmit` gate; the source's non-null assertions `heroId!` and
`laneAllyId!` are sound there because `canSubmit` implies both are set
(`getD 0` is never reached at a default). -/
def buildPayload (s : SelectionState) : Option RecommendPayload :=
  if canSubmit s then
    some
      { hero_id := s.heroId.getD 0
        lane_ally_id := s.laneAllyId.getD 0
        team_other_ids := s.teamOtherIds
        lane_enemy_ids := s.laneEnemyIds
        enemy_other_ids := s.enemyOtherIds
        top_k_per_phase := 8 }
  else none

/-- The per-phase recommendation lists of a response. -/
structure RecommendationsByPhase where
  early : List RecommendedItem
  mid : List RecommendedItem
  late : List RecommendedItem
  very_late : List RecommendedItem
deriving DecidableEq, Repr

/-- A successful `/api/recommend` response. -/
structure RecommendResponse where
  model_version : String
  recommendations : RecommendationsByPhase
deriving DecidableEq, Repr

/-- The recommendation-related React state of the build page. -/
structure UIState where
  isSubmitting : Bool
  recommendation : Option RecommendResponse
  submitError : Option String
  showBuildView : Bool
deriving DecidableEq, Repr

/-- Outcome of the recommendation fetch as observed by the `try`/`catch`
in `handleRecommendClick`: a decoded success, or a failure carrying the
message of the thrown error (upstream error body or generic message). -/
inductive FetchOutcome where
  | success : RecommendResponse → FetchOutcome
  | failure : String → FetchOutcome
deriving DecidableEq, Repr

/-- The state mutations `handleRecommendClick` performs before the new
request is issued: `setIsSubmitting(true)`, `setSubmitError(null)`,
`setRecommendation(null)`, `setShowBuildView(false)`. -/
def preRequestState (u : UIState) : UIState :=
  { u with
      isSubmitting := true
      submitError := none
      recommendation := none
      showBuildView := false }

/-- `handleRecommendClick` from the source, sequenced over one fetch
outcome: early return unless `canSubmit`; otherwise the pre-request
clearing, then on success the response is stored and the build view
shown, on failure the error message is stored; `finally` clears
`isSubmitting` in both paths. -/
def handleRecommendClick (sel : SelectionState) (u : UIState)
    (outcome : FetchOutcome) : UIState :=
  if canSubmit sel then
    let u1 := preRequestState u
    match outcome with
    | FetchOutcome.success data =>
        { u1 with
            recommendation := some data
            showBuildView := true
            isSubmitting := false }
    | FetchOutcome.failure msg =>
        { u1 with
            submitError := some msg
            isSubmitting := false }
  else u

/-- The dual-scale rule exactly as the specification words it (for the
refinement comparison): a value lying in `[0,1]` is a fraction and is
multiplied by 100; a value lying outside `[0,1]` is already a
percentage.  This is not the source function: `formatPercent` above
tests `value <= 1` instead. -/
def formatPercentSpec (value : Option JNum) : String :=
  match value with
  | none => "—"
  | some JNum.nan => "—"
  | some (JNum.num v) =>
      let w := if 0 ≤ v ∧ v ≤ 1 then qmul v 100 else v
      toFixed1 w ++ "%"

/-- A minimal `RecommendedItem` whose only interesting fields are the
synergy delta and the transition probability, for concrete panel
evaluations. -/
def sampleItem (synergy transition : Option JNum) : RecommendedItem :=
  { item_id := 0
    name := ""
    tier := none
    cost := JNum.num 0
    score := JNum.num 0
    shop_image := none
    shop_image_webp := none
    item_slot_type := none
    phase_rank := none
    phase_percentile := none
    hero_item_wr := none
    item_global_wr := none
    synergy_delta_wr := synergy
    transition_prob_from_prev := transition
    order_in_phase := JNum.num 0
    order_global := JNum.num 0
    total_score := none }

/-!
Theorems.  First the exact-arithmetic helpers are proved equal to the
standard rational operations, so `qmul`/`qadd`/`qabs` in the definitions
above are the ordinary `*`, `+` and `Math.abs`.
-/

theorem qmul_eq_mul (a b : ℚ) : qmul a b = a * b := by
  rw [qmul, Rat.mkRat_eq_divInt, Rat.divInt_eq_div]
  push_cast
  rw [← div_mul_div_comm, Rat.num_div_den, Rat.num_div_den]

theorem qadd_eq_add (a b : ℚ) : qadd a b = a + b := by
  have ha : (a.den : ℚ) ≠ 0 := Nat.cast_ne_zero.mpr a.den_nz
  have hb : (b.den : ℚ) ≠ 0 := Nat.cast_ne_zero.mpr b.den_nz
  rw [qadd, Rat.mkRat_eq_divInt, Rat.divInt_eq_div]
  push_cast
  conv_rhs => rw [← Rat.num_div_den a, ← Rat.num_div_den b]
  rw [div_add_div _ _ ha hb]
  congr 1
  ring

theorem qabs_eq_abs (a : ℚ) : qabs a = |a| := by
  rw [qabs]
  by_cases h : a < 0
  · rw [if_pos h, abs_of_neg h]
  · rw [if_neg h, abs_of_nonneg (le_of_not_lt h)]

/-!
Characterisation lemmas for `handleHeroClick`, one per branch of the
source function.
-/

theorem mem_usedHeroIds_iff (s : SelectionState) (id : Int) :
    id ∈ usedHeroIds s ↔
      s.heroId = some id ∨ s.laneAllyId = some id ∨ id ∈ s.teamOtherIds ∨
        id ∈ s.laneEnemyIds ∨ id ∈ s.enemyOtherIds := by
  simp [usedHeroIds, Option.mem_toList, Option.mem_def]

theorem not_used_parts (s : SelectionState) (id : Int)
    (hu : id ∉ usedHeroIds s) :
    s.heroId ≠ some id ∧ s.laneAllyId ≠ some id ∧ id ∉ s.teamOtherIds ∧
      id ∉ s.laneEnemyIds ∧ id ∉ s.enemyOtherIds := by
  rw [mem_usedHeroIds_iff] at hu
  push_neg at hu
  exact hu

theorem handleHeroClick_not_used (s : SelectionState) (id : Int)
    (hu : id ∉ usedHeroIds s) :
    handleHeroClick s id =
      match s.stage with
      | SelectionStage.hero =>
          { s with heroId := some id, stage := SelectionStage.laneAlly }
      | SelectionStage.laneAlly =>
          { s with laneAllyId := some id, stage := SelectionStage.teamOthers }
      | SelectionStage.teamOthers =>
          if MAX_TEAM_OTHERS ≤ s.teamOtherIds.length then s
          else
            { s with
                teamOtherIds := s.teamOtherIds ++ [id]
                stage :=
                  if (s.teamOtherIds ++ [id]).length = MAX_TEAM_OTHERS then
                    SelectionStage.laneEnemies
                  else s.stage }
      | SelectionStage.laneEnemies =>
          if MAX_LANE_ENEMIES ≤ s.laneEnemyIds.length then s
          else
            { s with
                laneEnemyIds := s.laneEnemyIds ++ [id]
                stage :=
                  if (s.laneEnemyIds ++ [id]).length = MAX_LANE_ENEMIES then
                    SelectionStage.enemyOthers
                  else s.stage }
      | SelectionStage.enemyOthers =>
          if MAX_ENEMY_OTHERS ≤ s.enemyOtherIds.length then s
          else { s with enemyOtherIds := s.enemyOtherIds ++ [id] } := by
  obtain ⟨h1, h2, h3, h4, h5⟩ := not_used_parts s id hu
  rw [handleHeroClick]
  rw [if_neg (by exact fun h => h1 h.2), if_neg (by exact fun h => h2 h.2),
    if_neg (by exact fun h => h3 h.2), if_neg (by exact fun h => h4 h.2),
    if_neg (by exact fun h => h5 h.2), if_neg hu]

theorem click_assign_hero (s : SelectionState) (id : Int)
    (hs : s.stage = SelectionStage.hero) (hu : id ∉ usedHeroIds s) :
    handleHeroClick s id =
      { s with heroId := some id, stage := SelectionStage.laneAlly } := by
  rw [handleHeroClick_not_used s id hu, hs]

theorem click_assign_laneAlly (s : SelectionState) (id : Int)
    (hs : s.stage = SelectionStage.laneAlly) (hu : id ∉ usedHeroIds s) :
    handleHeroClick s id =
      { s with laneAllyId := some id, stage := SelectionStage.teamOthers } := by
  rw [handleHeroClick_not_used s id hu, hs]

theorem click_assign_teamOthers (s : SelectionState) (id : Int)
    (hs : s.stage = SelectionStage.teamOthers) (hu : id ∉ usedHeroIds s)
    (hlen : s.teamOtherIds.length < MAX_TEAM_OTHERS) :
    handleHeroClick s id =
      { s with
          teamOtherIds := s.teamOtherIds ++ [id]
          stage :=
            if (s.teamOtherIds ++ [id]).length = MAX_TEAM_OTHERS then
              SelectionStage.laneEnemies
            else s.stage } := by
  rw [handleHeroClick_not_used s id hu, hs]
  exact if_neg (Nat.not_le.mpr hlen)

theorem click_full_teamOthers (s : SelectionState) (id : Int)
    (hs : s.stage = SelectionStage.teamOthers) (hu : id ∉ usedHeroIds s)
    (hlen : MAX_TEAM_OTHERS ≤ s.teamOtherIds.length) :
    handleHeroClick s id = s := by
  rw [handleHeroClick_not_used s id hu, hs]
  exact if_pos hlen

theorem click_assign_laneEnemies (s : SelectionState) (id : Int)
    (hs : s.stage = SelectionStage.laneEnemies) (hu : id ∉ usedHeroIds s)
    (hlen : s.laneEnemyIds.length < MAX_LANE_ENEMIES) :
    handleHeroClick s id =
      { s with
          laneEnemyIds := s.laneEnemyIds ++ [id]
          stage :=
            if (s.laneEnemyIds ++ [id]).length = MAX_LANE_ENEMIES then
              SelectionStage.enemyOthers
            else s.stage } := by
  rw [handleHeroClick_not_used s id hu, hs]
  exact if_neg (Nat.not_le.mpr hlen)

theorem click_full_laneEnemies (s : SelectionState) (id : Int)
    (hs : s.stage = SelectionStage.laneEnemies) (hu : id ∉ usedHeroIds s)
    (hlen : MAX_LANE_ENEMIES ≤ s.laneEnemyIds.length) :
    handleHeroClick s id = s := by
  rw [handleHeroClick_not_used s id hu, hs]
  exact if_pos hlen

theorem click_assign_enemyOthers (s : SelectionState) (id : Int)
    (hs : s.stage = SelectionStage.enemyOthers) (hu : id ∉ usedHeroIds s)
    (hlen : s.enemyOtherIds.length < MAX_ENEMY_OTHERS) :
    handleHeroClick s id = { s with enemyOtherIds := s.enemyOtherIds ++ [id] } := by
  rw [handleHeroClick_not_used s id hu, hs]
  exact if_neg (Nat.not_le.mpr hlen)

theorem click_full_enemyOthers (s : SelectionState) (id : Int)
    (hs : s.stage = SelectionStage.enemyOthers) (hu : id ∉ usedHeroIds s)
    (hlen : MAX_ENEMY_OTHERS ≤ s.enemyOtherIds.length) :
    handleHeroClick s id = s := by
  rw [handleHeroClick_not_used s id hu, hs]
  exact if_pos hlen

theorem click_toggle_hero (s : SelectionState) (id : Int)
    (hs : s.stage = SelectionStage.hero) (h : s.heroId = some id) :
    handleHeroClick s id = { s with heroId := none } := by
  rw [handleHeroClick, if_pos ⟨hs, h⟩]

theorem click_toggle_laneAlly (s : SelectionState) (id : Int)
    (hs : s.stage = SelectionStage.laneAlly) (h : s.laneAllyId = some id) :
    handleHeroClick s id = { s with laneAllyId := none } := by
  rw [handleHeroClick, if_neg (by rw [hs]; rintro ⟨hc, -⟩; cases hc),
    if_pos ⟨hs, h⟩]

theorem click_toggle_teamOthers (s : SelectionState) (id : Int)
    (hs : s.stage = SelectionStage.teamOthers) (h : id ∈ s.teamOtherIds) :
    handleHeroClick s id =
      { s with teamOtherIds := s.teamOtherIds.filter (fun x => x ≠ id) } := by
  rw [handleHeroClick, if_neg (by rw [hs]; rintro ⟨hc, -⟩; cases hc),
    if_neg (by rw [hs]; rintro ⟨hc, -⟩; cases hc), if_pos ⟨hs, h⟩]

theorem click_toggle_laneEnemies (s : SelectionState) (id : Int)
    (hs : s.stage = SelectionStage.laneEnemies) (h : id ∈ s.laneEnemyIds) :
    handleHeroClick s id =
      { s with laneEnemyIds := s.laneEnemyIds.filter (fun x => x ≠ id) } := by
  rw [handleHeroClick, if_neg (by rw [hs]; rintro ⟨hc, -⟩; cases hc),
    if_neg (by rw [hs]; rintro ⟨hc, -⟩; cases hc),
    if_neg (by rw [hs]; rintro ⟨hc, -⟩; cases hc), if_pos ⟨hs, h⟩]

theorem click_toggle_enemyOthers (s : SelectionState) (id : Int)
    (hs : s.stage = SelectionStage.enemyOthers) (h : id ∈ s.enemyOtherIds) :
    handleHeroClick s id =
      { s with enemyOtherIds := s.enemyOtherIds.filter (fun x => x ≠ id) } := by
  rw [handleHeroClick, if_neg (by rw [hs]; rintro ⟨hc, -⟩; cases hc),
    if_neg (by rw [hs]; rintro ⟨hc, -⟩; cases hc),
    if_neg (by rw [hs]; rintro ⟨hc, -⟩; cases hc),
    if_neg (by rw [hs]; rintro ⟨hc, -⟩; cases hc), if_pos ⟨hs, h⟩]

theorem click_used_other (s : SelectionState) (id : Int)
    (hu : id ∈ usedHeroIds s) (hslot : id ∉ slotOf s.stage s) :
    handleHeroClick s id = s := by
  cases hst : s.stage
  case hero =>
    rw [hst, slotOf] at hslot
    have hne : s.heroId ≠ some id := fun h => hslot (by simp [h])
    simp [handleHeroClick, hst, hne, hu]
  case laneAlly =>
    rw [hst, slotOf] at hslot
    have hne : s.laneAllyId ≠ some id := fun h => hslot (by simp [h])
    simp [handleHeroClick, hst, hne, hu]
  case teamOthers =>
    rw [hst, slotOf] at hslot
    simp [handleHeroClick, hst, hslot, hu]
  case laneEnemies =>
    rw [hst, slotOf] at hslot
    simp [handleHeroClick, hst, hslot, hu]
  case enemyOthers =>
    rw [hst, slotOf] at hslot
    simp [handleHeroClick, hst, hslot, hu]

/-!
Induction principle for reachable states, and the inductive invariants.
-/

theorem reachable_ind (P : SelectionState → Prop) (h0 : P initialState)
    (hstep : ∀ s id, P s → P (handleHeroClick s id)) :
    ∀ s, Reachable s → P s := by
  have hfold : ∀ (ids : List Int) (s0 : SelectionState),
      P s0 → P (List.foldl handleHeroClick s0 ids) := by
    intro ids
    induction ids with
    | nil => intro s0 h; exact h
    | cons a l ih => intro s0 h; exact ih _ (hstep _ _ h)
  rintro s ⟨ids, rfl⟩
  exact hfold ids initialState h0

theorem ite_filter_le (t : List Int) (p : Int → Bool) (j : Int) :
    (if j ∈ t.filter p then 1 else 0) ≤ (if j ∈ t then 1 else 0) := by
  by_cases hjf : j ∈ t.filter p
  · rw [if_pos hjf, if_pos (List.mem_of_mem_filter hjf)]
  · rw [if_neg hjf]
    exact Nat.zero_le _

theorem rolesOf_step (s : SelectionState) (id : Int)
    (h : ∀ j, rolesOf s j ≤ 1) :
    ∀ j, rolesOf (handleHeroClick s id) j ≤ 1 := by
  intro j
  have hthis := h j
  obtain ⟨st, hid, la, t, l, e⟩ := s
  by_cases hu : id ∈ usedHeroIds (SelectionState.mk st hid la t l e)
  · by_cases hslot : id ∈ slotOf st (SelectionState.mk st hid la t l e)
    · cases st
      · simp only [slotOf] at hslot
        cases hid with
        | none => simp at hslot
        | some a =>
            simp at hslot
            subst hslot
            rw [click_toggle_hero _ id rfl rfl]
            refine le_trans ?_ hthis
            simp only [rolesOf]
            exact Nat.add_le_add (Nat.add_le_add (Nat.add_le_add
              (Nat.add_le_add (by simp) (Nat.le_refl _)) (Nat.le_refl _))
              (Nat.le_refl _)) (Nat.le_refl _)
      · simp only [slotOf] at hslot
        cases la with
        | none => simp at hslot
        | some a =>
            simp at hslot
            subst hslot
            rw [click_toggle_laneAlly _ id rfl rfl]
            refine le_trans ?_ hthis
            simp only [rolesOf]
            exact Nat.add_le_add (Nat.add_le_add (Nat.add_le_add
              (Nat.add_le_add (Nat.le_refl _) (by simp)) (Nat.le_refl _))
              (Nat.le_refl _)) (Nat.le_refl _)
      · simp only [slotOf] at hslot
        rw [click_toggle_teamOthers _ id rfl hslot]
        refine le_trans ?_ hthis
        simp only [rolesOf]
        exact Nat.add_le_add (Nat.add_le_add (Nat.add_le_add
          (Nat.add_le_add (Nat.le_refl _) (Nat.le_refl _))
          (ite_filter_le t _ j)) (Nat.le_refl _)) (Nat.le_refl _)
      · simp only [slotOf] at hslot
        rw [click_toggle_laneEnemies _ id rfl hslot]
        refine le_trans ?_ hthis
        simp only [rolesOf]
        exact Nat.add_le_add (Nat.add_le_add (Nat.add_le_add
          (Nat.add_le_add (Nat.le_refl _) (Nat.le_refl _))
          (Nat.le_refl _)) (ite_filter_le l _ j)) (Nat.le_refl _)
      · simp only [slotOf] at hslot
        rw [click_toggle_enemyOthers _ id rfl hslot]
        refine le_trans ?_ hthis
        simp only [rolesOf]
        exact Nat.add_le_add (Nat.add_le_add (Nat.add_le_add
          (Nat.add_le_add (Nat.le_refl _) (Nat.le_refl _))
          (Nat.le_refl _)) (Nat.le_refl _)) (ite_filter_le e _ j)
    · rw [click_used_other _ id hu hslot]
      exact hthis
  · obtain ⟨h1, h2, h3, h4, h5⟩ := not_used_parts _ id hu
    simp only at h1 h2 h3 h4 h5
    cases st
    · rw [click_assign_hero _ id rfl hu]
      simp only [rolesOf] at hthis ⊢
      by_cases hj : j = id
      · subst hj
        simp [h2, h3, h4, h5]
      · have hne : ¬(some id = some j) := by
          simp only [Option.some.injEq]
          exact fun hc => hj hc.symm
        simp only [hne, if_false]
        omega
    · rw [click_assign_laneAlly _ id rfl hu]
      simp only [rolesOf] at hthis ⊢
      by_cases hj : j = id
      · subst hj
        simp [h1, h3, h4, h5]
      · have hne : ¬(some id = some j) := by
          simp only [Option.some.injEq]
          exact fun hc => hj hc.symm
        simp only [hne, if_false]
        omega
    · by_cases hcap : MAX_TEAM_OTHERS ≤ t.length
      · rw [click_full_teamOthers _ id rfl hu hcap]
        exact h j
      · rw [click_assign_teamOthers _ id rfl hu (Nat.not_le.mp hcap)]
        simp only [rolesOf] at hthis ⊢
        by_cases hj : j = id
        · subst hj
          simp [h1, h2, h4, h5]
        · rw [if_congr (show (j ∈ t ++ [id]) ↔ j ∈ t by simp [hj]) rfl rfl]
          omega
    · by_cases hcap : MAX_LANE_ENEMIES ≤ l.length
      · rw [click_full_laneEnemies _ id rfl hu hcap]
        exact h j
      · rw [click_assign_laneEnemies _ id rfl hu (Nat.not_le.mp hcap)]
        simp only [rolesOf] at hthis ⊢
        by_cases hj : j = id
        · subst hj
          simp [h1, h2, h3, h5]
        · rw [if_congr (show (j ∈ l ++ [id]) ↔ j ∈ l by simp [hj]) rfl rfl]
          omega
    · by_cases hcap : MAX_ENEMY_OTHERS ≤ e.length
      · rw [click_full_enemyOthers _ id rfl hu hcap]
        exact h j
      · rw [click_assign_enemyOthers _ id rfl hu (Nat.not_le.mp hcap)]
        simp only [rolesOf] at hthis ⊢
        by_cases hj : j = id
        · subst hj
          simp [h1, h2, h3, h4]
        · rw [if_congr (show (j ∈ e ++ [id]) ↔ j ∈ e by simp [hj]) rfl rfl]
          omega

theorem opt_of_mem_toList {o : Option Int} {a : Int} (h : a ∈ o.toList) :
    o = some a := by
  cases o <;> simp_all

theorem capacity_step (s : SelectionState) (id : Int)
    (h : s.teamOtherIds.length ≤ MAX_TEAM_OTHERS ∧
      s.laneEnemyIds.length ≤ MAX_LANE_ENEMIES ∧
      s.enemyOtherIds.length ≤ MAX_ENEMY_OTHERS) :
    (handleHeroClick s id).teamOtherIds.length ≤ MAX_TEAM_OTHERS ∧
      (handleHeroClick s id).laneEnemyIds.length ≤ MAX_LANE_ENEMIES ∧
      (handleHeroClick s id).enemyOtherIds.length ≤ MAX_ENEMY_OTHERS := by
  obtain ⟨hc1, hc2, hc3⟩ := h
  obtain ⟨st, hid, la, t, l, e⟩ := s
  simp only at hc1 hc2 hc3
  by_cases hu : id ∈ usedHeroIds (SelectionState.mk st hid la t l e)
  · by_cases hslot : id ∈ slotOf st (SelectionState.mk st hid la t l e)
    · cases st
      · simp only [slotOf] at hslot
        rw [click_toggle_hero _ id rfl (opt_of_mem_toList hslot)]
        exact ⟨hc1, hc2, hc3⟩
      · simp only [slotOf] at hslot
        rw [click_toggle_laneAlly _ id rfl (opt_of_mem_toList hslot)]
        exact ⟨hc1, hc2, hc3⟩
      · simp only [slotOf] at hslot
        rw [click_toggle_teamOthers _ id rfl hslot]
        exact ⟨le_trans (List.length_filter_le _ _) hc1, hc2, hc3⟩
      · simp only [slotOf] at hslot
        rw [click_toggle_laneEnemies _ id rfl hslot]
        exact ⟨hc1, le_trans (List.length_filter_le _ _) hc2, hc3⟩
      · simp only [slotOf] at hslot
        rw [click_toggle_enemyOthers _ id rfl hslot]
        exact ⟨hc1, hc2, le_trans (List.length_filter_le _ _) hc3⟩
    · rw [click_used_other _ id hu hslot]
      exact ⟨hc1, hc2, hc3⟩
  · cases st
    · rw [click_assign_hero _ id rfl hu]
      exact ⟨hc1, hc2, hc3⟩
    · rw [click_assign_laneAlly _ id rfl hu]
      exact ⟨hc1, hc2, hc3⟩
    · by_cases hcap : MAX_TEAM_OTHERS ≤ t.length
      · rw [click_full_teamOthers _ id rfl hu hcap]
        exact ⟨hc1, hc2, hc3⟩
      · rw [click_assign_teamOthers _ id rfl hu (Nat.not_le.mp hcap)]
        refine ⟨?_, hc2, hc3⟩
        simp only [List.length_append, List.length_singleton]
        omega
    · by_cases hcap : MAX_LANE_ENEMIES ≤ l.length
      · rw [click_full_laneEnemies _ id rfl hu hcap]
        exact ⟨hc1, hc2, hc3⟩
      · rw [click_assign_laneEnemies _ id rfl hu (Nat.not_le.mp hcap)]
        refine ⟨hc1, ?_, hc3⟩
        have := Nat.not_le.mp hcap
        simp only [List.length_append, List.length_singleton]
        omega
    · by_cases hcap : MAX_ENEMY_OTHERS ≤ e.length
      · rw [click_full_enemyOthers _ id rfl hu hcap]
        exact ⟨hc1, hc2, hc3⟩
      · rw [click_assign_enemyOthers _ id rfl hu (Nat.not_le.mp hcap)]
        refine ⟨hc1, hc2, ?_⟩
        have := Nat.not_le.mp hcap
        simp only [List.length_append, List.length_singleton]
        omega

theorem stage_slots_step (s : SelectionState) (id : Int)
    (h : (s.stage = SelectionStage.hero → s.heroId = none ∧ s.laneAllyId = none) ∧
      (s.stage = SelectionStage.laneAlly → s.laneAllyId = none)) :
    ((handleHeroClick s id).stage = SelectionStage.hero →
        (handleHeroClick s id).heroId = none ∧ (handleHeroClick s id).laneAllyId = none) ∧
      ((handleHeroClick s id).stage = SelectionStage.laneAlly →
        (handleHeroClick s id).laneAllyId = none) := by
  obtain ⟨st, hid, la, t, l, e⟩ := s
  by_cases hu : id ∈ usedHeroIds (SelectionState.mk st hid la t l e)
  · by_cases hslot : id ∈ slotOf st (SelectionState.mk st hid la t l e)
    · cases st
      · obtain ⟨hh, -⟩ := h.1 rfl
        simp only at hh
        simp only [slotOf] at hslot
        rw [hh] at hslot
        simp at hslot
      · have hl := h.2 rfl
        simp only at hl
        simp only [slotOf] at hslot
        rw [hl] at hslot
        simp at hslot
      · simp only [slotOf] at hslot
        rw [click_toggle_teamOthers _ id rfl hslot]
        simp
      · simp only [slotOf] at hslot
        rw [click_toggle_laneEnemies _ id rfl hslot]
        simp
      · simp only [slotOf] at hslot
        rw [click_toggle_enemyOthers _ id rfl hslot]
        simp
    · rw [click_used_other _ id hu hslot]
      exact h
  · cases st
    · obtain ⟨-, hl⟩ := h.1 rfl
      rw [click_assign_hero _ id rfl hu]
      simp only at hl
      simp [hl]
    · rw [click_assign_laneAlly _ id rfl hu]
      simp
    · by_cases hcap : MAX_TEAM_OTHERS ≤ t.length
      · rw [click_full_teamOthers _ id rfl hu hcap]
        exact h
      · rw [click_assign_teamOthers _ id rfl hu (Nat.not_le.mp hcap)]
        constructor
        · intro hc
          simp only at hc
          split_ifs at hc
        · intro hc
          simp only at hc
          split_ifs at hc
    · by_cases hcap : MAX_LANE_ENEMIES ≤ l.length
      · rw [click_full_laneEnemies _ id rfl hu hcap]
        exact h
      · rw [click_assign_laneEnemies _ id rfl hu (Nat.not_le.mp hcap)]
        constructor
        · intro hc
          simp only at hc
          split_ifs at hc
        · intro hc
          simp only at hc
          split_ifs at hc
    · by_cases hcap : MAX_ENEMY_OTHERS ≤ e.length
      · rw [click_full_enemyOthers _ id rfl hu hcap]
        exact h
      · rw [click_assign_enemyOthers _ id rfl hu (Nat.not_le.mp hcap)]
        simp

theorem reachable_rolesOf : ∀ s, Reachable s → ∀ j, rolesOf s j ≤ 1 :=
  reachable_ind _ (fun j => by simp [rolesOf, initialState]) rolesOf_step

theorem reachable_capacity : ∀ s, Reachable s →
    s.teamOtherIds.length ≤ MAX_TEAM_OTHERS ∧
      s.laneEnemyIds.length ≤ MAX_LANE_ENEMIES ∧
      s.enemyOtherIds.length ≤ MAX_ENEMY_OTHERS :=
  reachable_ind _ (by simp [initialState]) capacity_step

theorem reachable_stage_slots : ∀ s, Reachable s →
    (s.stage = SelectionStage.hero → s.heroId = none ∧ s.laneAllyId = none) ∧
      (s.stage = SelectionStage.laneAlly → s.laneAllyId = none) :=
  reachable_ind _ (by simp [initialState]) stage_slots_step

/-- C1: starting from the empty state, every sequence of `handleHeroClick`
operations keeps each hero id in at most one of the five role slots, and a
click on an id that is used by a role other than the one the current stage
governs leaves the whole selection state unchanged. -/
theorem uniqueness_invariant :
    (∀ s, Reachable s → ∀ id, rolesOf s id ≤ 1) ∧
      (∀ s id, id ∈ usedHeroIds s → id ∉ slotOf s.stage s →
        handleHeroClick s id = s) :=
  ⟨reachable_rolesOf, fun s id hu hslot => click_used_other s id hu hslot⟩

/-- Witness for C1 at a concrete reachable state: after clicking 1, 2, 3
the id 2 occupies exactly one role, and clicking 1 (the selected hero)
while the stage is `teamOthers` changes nothing. -/
theorem uniqueness_invariant_witness :
    rolesOf (runClicks [1, 2, 3]) 2 ≤ 1 ∧
      handleHeroClick (runClicks [1, 2, 3]) 1 = runClicks [1, 2, 3] :=
  ⟨uniqueness_invariant.1 (runClicks [1, 2, 3]) ⟨[1, 2, 3], rfl⟩ 2,
    uniqueness_invariant.2 (runClicks [1, 2, 3]) 1 (by decide) (by decide)⟩

/-- C2: every reachable state respects the 4/2/4 capacities, and a click
with a fresh id while the current stage's slot is full is a silent no-op
(the model returns the state unchanged and has no error output at all). -/
theorem capacity_invariant :
    (∀ s, Reachable s →
      s.teamOtherIds.length ≤ MAX_TEAM_OTHERS ∧
        s.laneEnemyIds.length ≤ MAX_LANE_ENEMIES ∧
        s.enemyOtherIds.length ≤ MAX_ENEMY_OTHERS) ∧
      (∀ s id, id ∉ usedHeroIds s →
        (s.stage = SelectionStage.teamOthers →
          MAX_TEAM_OTHERS ≤ s.teamOtherIds.length → handleHeroClick s id = s) ∧
        (s.stage = SelectionStage.laneEnemies →
          MAX_LANE_ENEMIES ≤ s.laneEnemyIds.length → handleHeroClick s id = s) ∧
        (s.stage = SelectionStage.enemyOthers →
          MAX_ENEMY_OTHERS ≤ s.enemyOtherIds.length → handleHeroClick s id = s)) := by
  refine ⟨reachable_capacity, fun s id hu => ⟨?_, ?_, ?_⟩⟩
  · exact fun hs hlen => click_full_teamOthers s id hs hu hlen
  · exact fun hs hlen => click_full_laneEnemies s id hs hu hlen
  · exact fun hs hlen => click_full_enemyOthers s id hs hu hlen

/-- Witness for C2 at a concrete state: the full 12-click draft respects
the capacities, and a 13th distinct hero is silently ignored. -/
theorem capacity_invariant_witness :
    ((runClicks [1, 2, 3, 4, 5, 6, 7, 8, 9, 10, 11, 12]).teamOtherIds.length ≤
        MAX_TEAM_OTHERS ∧
      (runClicks [1, 2, 3, 4, 5, 6, 7, 8, 9, 10, 11, 12]).laneEnemyIds.length ≤
        MAX_LANE_ENEMIES ∧
      (runClicks [1, 2, 3, 4, 5, 6, 7, 8, 9, 10, 11, 12]).enemyOtherIds.length ≤
        MAX_ENEMY_OTHERS) ∧
      handleHeroClick (runClicks [1, 2, 3, 4, 5, 6, 7, 8, 9, 10, 11, 12]) 13 =
        runClicks [1, 2, 3, 4, 5, 6, 7, 8, 9, 10, 11, 12] :=
  ⟨capacity_invariant.1 _ ⟨[1, 2, 3, 4, 5, 6, 7, 8, 9, 10, 11, 12], rfl⟩,
    (capacity_invariant.2 _ 13 (by decide)).2.2 (by decide) (by decide)⟩

/-- C3: `canSubmit` holds exactly when the two single slots are set and
the three sequences have lengths 4, 2 and 4; it fails whenever any one
condition fails. -/
theorem completeness_gate (s : SelectionState) :
    canSubmit s = true ↔
      s.heroId ≠ none ∧ s.laneAllyId ≠ none ∧
        s.teamOtherIds.length = 4 ∧ s.laneEnemyIds.length = 2 ∧
        s.enemyOtherIds.length = 4 := by
  simp [canSubmit, MAX_TEAM_OTHERS, MAX_LANE_ENEMIES, MAX_ENEMY_OTHERS,
    Option.isSome_iff_ne_none, and_assoc]

/-- C4: with an unused id, assignment at `hero` advances to `laneAlly`,
at `laneAlly` to `teamOthers`; appending the 4th ally advances to
`laneEnemies` while a 3rd does not; appending the 2nd lane enemy
advances to `enemyOthers`; `enemyOthers` never advances (terminal). -/
theorem auto_advance (s : SelectionState) (id : Int) (_hr : Reachable s)
    (hu : id ∉ usedHeroIds s) :
    (s.stage = SelectionStage.hero →
      (handleHeroClick s id).stage = SelectionStage.laneAlly) ∧
    (s.stage = SelectionStage.laneAlly →
      (handleHeroClick s id).stage = SelectionStage.teamOthers) ∧
    (s.stage = SelectionStage.teamOthers → s.teamOtherIds.length = 3 →
      (handleHeroClick s id).stage = SelectionStage.laneEnemies) ∧
    (s.stage = SelectionStage.teamOthers → s.teamOtherIds.length = 2 →
      (handleHeroClick s id).stage = SelectionStage.teamOthers) ∧
    (s.stage = SelectionStage.laneEnemies → s.laneEnemyIds.length = 1 →
      (handleHeroClick s id).stage = SelectionStage.enemyOthers) ∧
    (s.stage = SelectionStage.enemyOthers →
      (handleHeroClick s id).stage = SelectionStage.enemyOthers) := by
  refine ⟨?_, ?_, ?_, ?_, ?_, ?_⟩
  · intro hs
    rw [click_assign_hero s id hs hu]
  · intro hs
    rw [click_assign_laneAlly s id hs hu]
  · intro hs hlen
    rw [click_assign_teamOthers s id hs hu
      (by rw [hlen]; simp [MAX_TEAM_OTHERS])]
    simp [List.length_append, hlen, MAX_TEAM_OTHERS]
  · intro hs hlen
    rw [click_assign_teamOthers s id hs hu
      (by rw [hlen]; simp [MAX_TEAM_OTHERS])]
    simp [List.length_append, hlen, MAX_TEAM_OTHERS, hs]
  · intro hs hlen
    rw [click_assign_laneEnemies s id hs hu
      (by rw [hlen]; simp [MAX_LANE_ENEMIES])]
    simp [List.length_append, hlen, MAX_LANE_ENEMIES]
  · intro hs
    by_cases hcap : MAX_ENEMY_OTHERS ≤ s.enemyOtherIds.length
    · rw [click_full_enemyOthers s id hs hu hcap]
      exact hs
    · rw [click_assign_enemyOthers s id hs hu (Nat.not_le.mp hcap)]
      exact hs

/-- Witness for C4: after 5 clicks the stage is `teamOthers` with 3
allies chosen, and clicking the unused id 6 advances to `laneEnemies`. -/
theorem auto_advance_witness :
    (handleHeroClick (runClicks [1, 2, 3, 4, 5]) 6).stage =
      SelectionStage.laneEnemies :=
  (auto_advance (runClicks [1, 2, 3, 4, 5]) 6 ⟨[1, 2, 3, 4, 5], rfl⟩
    (by decide)).2.2.1 (by decide) (by decide)

theorem filter_append_self (t : List Int) (id : Int) (h : id ∉ t) :
    (t ++ [id]).filter (fun x => x ≠ id) = t := by
  rw [List.filter_append]
  have h2 : [id].filter (fun x => (x ≠ id : Bool)) = [] := by simp
  rw [h2, List.append_nil]
  apply List.filter_eq_self.mpr
  intro a ha
  simp only [ne_eq, decide_not, Bool.not_eq_eq_eq_not, Bool.not_true,
    decide_eq_false_iff_not]
  exact fun hc => h (hc ▸ ha)

theorem toggle_round_trip_state (s : SelectionState) (id : Int)
    (hr : Reachable s) (hu : id ∉ usedHeroIds s) :
    handleHeroClick (handleStageClick (handleHeroClick s id) s.stage) id = s := by
  have hsi := reachable_stage_slots s hr
  obtain ⟨h1, h2, h3, h4, h5⟩ := not_used_parts s id hu
  obtain ⟨st, hid, la, t, l, e⟩ := s
  simp only at h1 h2 h3 h4 h5
  cases st
  · obtain ⟨hh, -⟩ := hsi.1 rfl
    simp only at hh
    subst hh
    rw [click_assign_hero _ id rfl hu, handleStageClick]
    rw [click_toggle_hero _ id rfl rfl]
  · have hl := hsi.2 rfl
    simp only at hl
    subst hl
    rw [click_assign_laneAlly _ id rfl hu, handleStageClick]
    rw [click_toggle_laneAlly _ id rfl rfl]
  · by_cases hcap : MAX_TEAM_OTHERS ≤ t.length
    · rw [click_full_teamOthers _ id rfl hu hcap, handleStageClick]
      rw [click_full_teamOthers _ id rfl hu hcap]
    · rw [click_assign_teamOthers _ id rfl hu (Nat.not_le.mp hcap),
        handleStageClick]
      rw [click_toggle_teamOthers _ id rfl (by simp)]
      simp only [filter_append_self t id h3]
  · by_cases hcap : MAX_LANE_ENEMIES ≤ l.length
    · rw [click_full_laneEnemies _ id rfl hu hcap, handleStageClick]
      rw [click_full_laneEnemies _ id rfl hu hcap]
    · rw [click_assign_laneEnemies _ id rfl hu (Nat.not_le.mp hcap),
        handleStageClick]
      rw [click_toggle_laneEnemies _ id rfl (by simp)]
      simp only [filter_append_self l id h4]
  · by_cases hcap : MAX_ENEMY_OTHERS ≤ e.length
    · rw [click_full_enemyOthers _ id rfl hu hcap, handleStageClick]
      rw [click_full_enemyOthers _ id rfl hu hcap]
    · rw [click_assign_enemyOthers _ id rfl hu (Nat.not_le.mp hcap),
        handleStageClick]
      rw [click_toggle_enemyOthers _ id rfl (by simp)]
      simp only [filter_append_self e id h5]

/-- C5: from any reachable state, selecting an unused id and then
re-selecting the same id in the same stage (after returning to that
stage when the first click auto-advanced) restores the slot governed by
that stage to its pre-selection value, and the toggle-off click itself
does not change the stage. -/
theorem toggle_idempotence (s : SelectionState) (id : Int)
    (hr : Reachable s) (hu : id ∉ usedHeroIds s) :
    slotOf s.stage
        (handleHeroClick (handleStageClick (handleHeroClick s id) s.stage) id) =
      slotOf s.stage s ∧
      (handleHeroClick (handleStageClick (handleHeroClick s id) s.stage) id).stage =
        (handleStageClick (handleHeroClick s id) s.stage).stage := by
  rw [toggle_round_trip_state s id hr hu]
  exact ⟨rfl, rfl⟩

/-- Witness for C5: with heroes 1 and 2 selected (stage `teamOthers`),
selecting and re-selecting the unused id 5 restores the ally slot and
keeps the stage. -/
theorem toggle_idempotence_witness :
    slotOf (runClicks [1, 2]).stage
        (handleHeroClick
          (handleStageClick (handleHeroClick (runClicks [1, 2]) 5)
            (runClicks [1, 2]).stage) 5) =
      slotOf (runClicks [1, 2]).stage (runClicks [1, 2]) ∧
      (handleHeroClick
          (handleStageClick (handleHeroClick (runClicks [1, 2]) 5)
            (runClicks [1, 2]).stage) 5).stage =
        (handleStageClick (handleHeroClick (runClicks [1, 2]) 5)
          (runClicks [1, 2]).stage).stage :=
  toggle_idempotence (runClicks [1, 2]) 5 ⟨[1, 2], rfl⟩ (by decide)

/-- C6 counterexample: `-5` lies outside `[0,1]`, so the claim says it is
treated as already a percentage (`"-5.0%"`), but the code's `value <= 1`
test multiplies it by 100 and renders `"-500.0%"`. -/
theorem formatPercent_dual_scale_counterexample :
    formatPercent (some (JNum.num (-5))) = "-500.0%" ∧
      formatPercentSpec (some (JNum.num (-5))) = "-5.0%" ∧
      formatPercent (some (JNum.num (-5))) ≠
        formatPercentSpec (some (JNum.num (-5))) := by decide

/-- C6 (amended): `formatPercent` treats a value `≤ 1` as a fraction
(multiplying by 100) and a value `> 1` as already a percentage, always
rendering with `toFixed(1)` and a `%` sign; in particular both 0.873 and
87.3 render as `"87.3%"`. -/
theorem formatPercent_dual_scale (v : ℚ) :
    (v ≤ 1 → formatPercent (some (JNum.num v)) = toFixed1 (qmul v 100) ++ "%") ∧
      (1 < v → formatPercent (some (JNum.num v)) = toFixed1 v ++ "%") ∧
      formatPercent (some (JNum.num (mkRat 873 1000))) = "87.3%" ∧
      formatPercent (some (JNum.num (mkRat 873 10))) = "87.3%" := by
  refine ⟨?_, ?_, by decide, by decide⟩
  · intro h
    simp [formatPercent, h]
  · intro h
    simp [formatPercent, not_le.mpr h]

/-- Witness for C6 (amended) at 1/2 and at 50. -/
theorem formatPercent_dual_scale_witness :
    formatPercent (some (JNum.num (mkRat 1 2))) =
        toFixed1 (qmul (mkRat 1 2) 100) ++ "%" ∧
      formatPercent (some (JNum.num 50)) = toFixed1 50 ++ "%" :=
  ⟨(formatPercent_dual_scale (mkRat 1 2)).1 (by decide),
    (formatPercent_dual_scale 50).2.1 (by decide)⟩

theorem showsSynergyPanel_eq_hasSynergy (it : RecommendedItem) :
    showsSynergyPanel it = hasSynergy it := by
  by_cases h : hasSynergy it = true
  · simp [showsSynergyPanel, statBlockShown, statBlockLabel, h]
  · rw [Bool.not_eq_true] at h
    simp [showsSynergyPanel, statBlockShown, statBlockLabel, h]

theorem hasSynergy_iff (it : RecommendedItem) :
    hasSynergy it = true ↔
      ∃ d : ℚ, it.synergy_delta_wr = some (JNum.num d) ∧
        mkRat 5 10000 < qabs d := by
  cases hd : it.synergy_delta_wr with
  | none => simp [hasSynergy, hd]
  | some jn =>
      cases jn with
      | nan => simp [hasSynergy, hd]
      | num d => simp [hasSynergy, hd]

/-- C7: the synergy panel shows exactly when the synergy delta is a
non-null number of absolute value above 0.0005; otherwise a non-null
transition probability yields the flow panel; the two are never shown
together and synergy wins when both qualify; the synergy value is the
unsigned magnitude behind an explicit sign glyph; 0.0003 is suppressed
and 0.0006 shown. -/
theorem synergy_flow_panels (it : RecommendedItem) :
    (showsSynergyPanel it = true ↔
      ∃ d : ℚ, it.synergy_delta_wr = some (JNum.num d) ∧
        mkRat 5 10000 < qabs d) ∧
      (showsFlowPanel it = true ↔
        hasSynergy it = false ∧ it.transition_prob_from_prev ≠ none) ∧
      ¬(showsSynergyPanel it = true ∧ showsFlowPanel it = true) ∧
      (hasSynergy it = true → it.transition_prob_from_prev ≠ none →
        showsSynergyPanel it = true ∧ showsFlowPanel it = false) ∧
      (∀ d : ℚ, it.synergy_delta_wr = some (JNum.num d) →
        hasSynergy it = true →
        synergyDisplay it =
          some ((if 0 ≤ d then "+" else "−") ++
            formatPercent (some (JNum.num (qabs d)))) ∧
          highlightClass it =
            (if 0 ≤ d then "item-stat-block--positive"
            else "item-stat-block--negative")) ∧
      showsSynergyPanel (sampleItem (some (JNum.num (mkRat 3 10000))) none) =
        false ∧
      showsSynergyPanel (sampleItem (some (JNum.num (mkRat 6 10000))) none) =
        true ∧
      synergyDisplay (sampleItem (some (JNum.num (mkRat 6 10000))) none) =
        some "+0.1%" ∧
      synergyDisplay (sampleItem (some (JNum.num (mkRat (-6) 10000))) none) =
        some "−0.1%" := by
  refine ⟨?_, ?_, ?_, ?_, ?_, by decide, by decide, by decide, by decide⟩
  · rw [showsSynergyPanel_eq_hasSynergy]
    exact hasSynergy_iff it
  · by_cases h : hasSynergy it = true
    · simp [showsFlowPanel, statBlockShown, statBlockLabel, h]
    · rw [Bool.not_eq_true] at h
      cases ht : it.transition_prob_from_prev <;>
        simp [showsFlowPanel, statBlockShown, statBlockLabel, flowDisplay, h, ht]
  · rintro ⟨hs, hf⟩
    rw [showsSynergyPanel_eq_hasSynergy] at hs
    by_cases h : hasSynergy it = true
    · simp [showsFlowPanel, statBlockShown, statBlockLabel, h] at hf
    · rw [hs] at h
      exact h rfl
  · intro h ht
    constructor
    · rw [showsSynergyPanel_eq_hasSynergy]
      exact h
    · simp [showsFlowPanel, statBlockShown, statBlockLabel, h]
  · intro d hd h
    constructor
    · simp [synergyDisplay, h, hd, synergyPositive]
    · simp [highlightClass, h, hd, synergyPositive]

/-- Witness for C7: an item with synergy delta 0.0006 and a transition
probability qualifies for both panels; the synergy panel is shown and
the flow panel is not. -/
theorem synergy_flow_panels_witness :
    showsSynergyPanel
        (sampleItem (some (JNum.num (mkRat 6 10000)))
          (some (JNum.num (mkRat 1 2)))) = true ∧
      showsFlowPanel
        (sampleItem (some (JNum.num (mkRat 6 10000)))
          (some (JNum.num (mkRat 1 2)))) = false :=
  (synergy_flow_panels _).2.2.2.1 (by decide) (by decide)

/-- C8: clicking 1 (hero), 2 (lane ally), 3–6 (allies), 7–8 (lane
enemies), 9–12 (enemy team) in order, relying only on auto-advance,
completes the selection and builds exactly the expected request with
selection order preserved and `top_k_per_phase = 8`. -/
theorem end_to_end_scenario :
    canSubmit (runClicks [1, 2, 3, 4, 5, 6, 7, 8, 9, 10, 11, 12]) = true ∧
      buildPayload (runClicks [1, 2, 3, 4, 5, 6, 7, 8, 9, 10, 11, 12]) =
        some
          { hero_id := 1
            lane_ally_id := 2
            team_other_ids := [3, 4, 5, 6]
            lane_enemy_ids := [7, 8]
            enemy_other_ids := [9, 10, 11, 12]
            top_k_per_phase := 8 } := by decide

/-- C9: a submission that passes the `canSubmit` gate first clears the
previous recommendation and the previous error (the pre-request state),
so that a failing fetch ends with no recommendation, the new error
message, and the build view hidden — never a stale success beside a new
failure. -/
theorem stale_result_clearing (sel : SelectionState) (u : UIState)
    (outcome : FetchOutcome) (hc : canSubmit sel = true) :
    (preRequestState u).recommendation = none ∧
      (preRequestState u).submitError = none ∧
      handleRecommendClick sel u outcome =
        (match outcome with
        | FetchOutcome.success data =>
            { preRequestState u with
                recommendation := some data
                showBuildView := true
                isSubmitting := false }
        | FetchOutcome.failure msg =>
            { preRequestState u with
                submitError := some msg
                isSubmitting := false }) ∧
      (∀ msg, outcome = FetchOutcome.failure msg →
        (handleRecommendClick sel u outcome).recommendation = none ∧
          (handleRecommendClick sel u outcome).submitError = some msg ∧
          (handleRecommendClick sel u outcome).showBuildView = false) := by
  refine ⟨rfl, rfl, ?_, ?_⟩
  · cases outcome <;> simp [handleRecommendClick, hc]
  · rintro msg rfl
    simp [handleRecommendClick, hc, preRequestState]

/-- Witness for C9: a completed draft, a stale success on screen, and a
failing fetch: the stale result is gone and only the new error shows. -/
theorem stale_result_clearing_witness :
    (handleRecommendClick (runClicks [1, 2, 3, 4, 5, 6, 7, 8, 9, 10, 11, 12])
          { isSubmitting := false
            recommendation :=
              some
                { model_version := "v1"
                  recommendations :=
                    { early := [], mid := [], late := [], very_late := [] } }
            submitError := none
            showBuildView := true }
          (FetchOutcome.failure "boom")).recommendation = none ∧
      (handleRecommendClick (runClicks [1, 2, 3, 4, 5, 6, 7, 8, 9, 10, 11, 12])
          { isSubmitting := false
            recommendation :=
              some
                { model_version := "v1"
                  recommendations :=
                    { early := [], mid := [], late := [], very_late := [] } }
            submitError := none
            showBuildView := true }
          (FetchOutcome.failure "boom")).submitError = some "boom" ∧
      (handleRecommendClick (runClicks [1, 2, 3, 4, 5, 6, 7, 8, 9, 10, 11, 12])
          { isSubmitting := false
            recommendation :=
              some
                { model_version := "v1"
                  recommendations :=
                    { early := [], mid := [], late := [], very_late := [] } }
            submitError := none
            showBuildView := true }
          (FetchOutcome.failure "boom")).showBuildView = false :=
  (stale_result_clearing _ _ _ (by decide)).2.2.2 "boom" rfl

/-- C10: the formatters are total at the public interface: `null` and
`undefined` (both modelled as `none`) and NaN all map to the `"—"`
placeholder in `formatPercent` and `formatPercentile`, and `tierToRoman`
maps a `null`/`undefined` tier to `""`; being total Lean functions over
the full modelled input type, none of them can throw. -/
theorem formatter_totality :
    formatPercent none = "—" ∧ formatPercent (some JNum.nan) = "—" ∧
      formatPercentile none = "—" ∧ formatPercentile (some JNum.nan) = "—" ∧
      tierToRoman none = "" := by decide
